import Mathlib

/-!
A verification development for the `include-tailwind-build` crate
(`src/include-tailwind-build/src/lib.rs`).

The crate is a cargo build-script helper that either installs and compiles
tailwind (release profile, or when `always` is set) or writes a small JIT
configuration script (debug profile).  The embedding below models:

* `serde_json::Value` together with `serde_json::to_string_pretty`
  (`Json`, `toStringPretty`): objects are maps in insertion order that are
  deduplicated (last write wins) and sorted by key at serialization time,
  mirroring `serde_json`'s default `BTreeMap` backing; numbers are
  restricted to integers (no claim concerns float formatting);
* Rust's `str::replace` (`rustReplace` / `replaceL`): a greedy
  left-to-right scan replacing each non-overlapping occurrence of the
  pattern;
* the filesystem, environment and subprocesses as an explicit `World`
  value plus an event trace (`Event`); `fs::write` is modelled as always
  succeeding, `fs::copy` fails when the source has no readable content;
  subprocess exit codes are oracle bits in the `World`;
* Rust panics (`panic!`, `.expect`, `.unwrap`) as the `Res.panicked`
  outcome, distinct from the typed `Except`-style `Res.err`;
* `PathBuf` as `RustPath`: a textual path plus a flag recording whether
  `Path::to_str` succeeds (non-UTF-8 paths are not otherwise observable
  in this model).

Every function named after one in the crate (`config_string`,
`install_tailwind`, `compile_tailwind`, `setup_jit`, `build`,
`is_release`, `BuildConfig.*`) is a direct translation of the Rust source;
early `return`/`?`/`panic!` control flow is written as explicit matches.
-/

/-- The left brace character (written via its code point to keep string
literals free of braces). -/
def lb : Char := Char.ofNat 123

/-- The right brace character. -/
def rb : Char := Char.ofNat 125

/-- A `serde_json::Value` restricted to integer numbers. -/
inductive Json where
  | null : Json
  | bool (b : Bool) : Json
  | num (n : Int) : Json
  | str (s : String) : Json
  | arr (xs : List Json) : Json
  | obj (kvs : List (String × Json)) : Json

/-- Lexicographic comparison of character lists by code point (for valid
unicode this coincides with the byte-lexicographic UTF-8 order Rust's
`String: Ord` uses). -/
def charListLt : List Char → List Char → Bool
  | [], [] => false
  | [], _ :: _ => true
  | _ :: _, [] => false
  | a :: as, b :: bs =>
    if a.toNat < b.toNat then true
    else if b.toNat < a.toNat then false
    else charListLt as bs

/-- The strict order on strings under which `BTreeMap` keys are sorted. -/
def strLt (a b : String) : Bool := charListLt a.data b.data

/-- Insert into a sorted association list, replacing an existing binding:
the behaviour of `BTreeMap::insert` keyed by byte-lexicographic order. -/
def insertSorted (k : String) (v : Json) : List (String × Json) → List (String × Json)
  | [] => [(k, v)]
  | (k', v') :: rest =>
    if k = k' then (k, v) :: rest
    else if strLt k k' then (k, v) :: (k', v') :: rest
    else (k', v') :: insertSorted k v rest

/-- Build the `BTreeMap` contents from the entry list of an object:
later duplicate keys win, iteration order is sorted by key. -/
def sortDedupe (kvs : List (String × Json)) : List (String × Json) :=
  kvs.foldl (fun acc kv => insertSorted kv.1 kv.2 acc) []

mutual
/-- Normalize a `Json` value to the shape `serde_json` stores: every
object becomes a sorted, key-deduplicated map. -/
def Json.canon : Json → Json
  | Json.null => Json.null
  | Json.bool b => Json.bool b
  | Json.num n => Json.num n
  | Json.str s => Json.str s
  | Json.arr xs => Json.arr (Json.canonArr xs)
  | Json.obj kvs => Json.obj (sortDedupe (Json.canonObj kvs))

/-- Normalize every element of an array. -/
def Json.canonArr : List Json → List Json
  | [] => []
  | x :: xs => Json.canon x :: Json.canonArr xs

/-- Normalize every value of an object entry list. -/
def Json.canonObj : List (String × Json) → List (String × Json)
  | [] => []
  | (k, v) :: kvs => (k, Json.canon v) :: Json.canonObj kvs
end

/-- One lowercase hexadecimal digit. -/
def hexDigit (n : Nat) : String :=
  String.singleton (Char.ofNat (if n < 10 then 48 + n else 87 + n))

/-- JSON string escaping as performed by `serde_json`'s serializer:
quote, backslash, the five short control escapes, `\u00..` for the other
control characters, everything else verbatim. -/
def escapeChar (c : Char) : String :=
  if c = '"' then "\\\""
  else if c = '\\' then "\\\\"
  else if c.toNat = 8 then "\\b"
  else if c.toNat = 9 then "\\t"
  else if c.toNat = 10 then "\\n"
  else if c.toNat = 12 then "\\f"
  else if c.toNat = 13 then "\\r"
  else if c.toNat < 32 then "\\u00" ++ hexDigit (c.toNat / 16) ++ hexDigit (c.toNat % 16)
  else String.singleton c

/-- Escape a whole string for embedding in JSON output. -/
def escapeJson (s : String) : String :=
  String.join (s.data.map escapeChar)

/-- Indentation used by `serde_json::to_string_pretty`: two spaces per
nesting level. -/
def indentStr (d : Nat) : String :=
  String.mk (List.replicate (2 * d) ' ')

mutual
/-- Pretty-print a (already canonicalized) `Json` value at nesting depth
`d`, following `serde_json::ser::PrettyFormatter`. -/
def renderJson (d : Nat) : Json → String
  | Json.null => "null"
  | Json.bool b => if b then "true" else "false"
  | Json.num n => toString n
  | Json.str s => "\"" ++ escapeJson s ++ "\""
  | Json.arr [] => "[]"
  | Json.arr (x :: xs) =>
    "[\n" ++ indentStr (d + 1) ++ renderJson (d + 1) x ++ renderArr (d + 1) xs
      ++ "\n" ++ indentStr d ++ "]"
  | Json.obj [] => "\x7b\x7d"
  | Json.obj ((k, v) :: kvs) =>
    "\x7b\n" ++ indentStr (d + 1) ++ "\"" ++ escapeJson k ++ "\": "
      ++ renderJson (d + 1) v ++ renderObj (d + 1) kvs
      ++ "\n" ++ indentStr d ++ "\x7d"

/-- Render the remaining elements of a non-empty array. -/
def renderArr (d : Nat) : List Json → String
  | [] => ""
  | x :: xs => ",\n" ++ indentStr d ++ renderJson d x ++ renderArr d xs

/-- Render the remaining entries of a non-empty object. -/
def renderObj (d : Nat) : List (String × Json) → String
  | [] => ""
  | (k, v) :: kvs =>
    ",\n" ++ indentStr d ++ "\"" ++ escapeJson k ++ "\": " ++ renderJson d v
      ++ renderObj d kvs
end

/-- `serde_json::to_string_pretty` on a `Json` value. -/
def toStringPretty (j : Json) : String :=
  renderJson 0 j.canon

/-- Fuel-indexed greedy replacement scan (the fuel only bounds the
recursion depth; `replaceL` instantiates it with the input's length,
which always suffices since each step consumes at least one character). -/
def replaceLF (p : Char) (ps rep : List Char) : Nat → List Char → List Char
  | _, [] => []
  | 0, _ :: _ => []
  | fuel + 1, c :: l =>
    if (p :: ps).isPrefixOf (c :: l) then
      rep ++ replaceLF p ps rep fuel (l.drop ps.length)
    else
      c :: replaceLF p ps rep fuel l

/-- Greedy left-to-right replacement of every non-overlapping occurrence
of the non-empty pattern `p :: ps` by `rep`: the semantics of Rust's
`str::replace` for a non-empty pattern. -/
def replaceL (p : Char) (ps rep l : List Char) : List Char :=
  replaceLF p ps rep l.length l

/-- The number of replacements the greedy scan of `replaceL` performs. -/
def replaceCountL (p : Char) (ps : List Char) : List Char → Nat
  | [] => 0
  | c :: l =>
    if (p :: ps).isPrefixOf (c :: l) then
      1 + replaceCountL p ps (l.drop ps.length)
    else
      replaceCountL p ps l
termination_by l => l.length
decreasing_by
  · simp only [List.length_drop, List.length_cons]; omega
  · simp

/-- The number of positions of `l` at which the pattern `pat` occurs
(counted over all suffixes, so overlapping occurrences each count). -/
def occCountL (pat l : List Char) : Nat :=
  l.tails.countP fun t => pat.isPrefixOf t

/-- Rust's `str::replace`.  The empty-pattern case (which the crate never
exercises: its pattern is the literal placeholder) inserts the
replacement at every character boundary, as Rust does. -/
def rustReplace (s pat rep : String) : String :=
  match pat.data with
  | [] => String.mk (rep.data ++ s.data.foldr (fun c acc => c :: rep.data ++ acc) [])
  | p :: ps => String.mk (replaceL p ps rep.data s.data)

/-- The placeholder token `{src_dir}` (braces written as escapes). -/
def srcDirTok : String := "\x7bsrc_dir\x7d"

/-- The tail of the placeholder token after its opening brace. -/
def tokTailL : List Char := "src_dir\x7d".data

/-- A `std::path::PathBuf`: its textual form, plus whether `to_str`
succeeds (paths with invalid unicode return `none` from `to_str`). -/
structure RustPath where
  repr : String
  validUnicode : Bool

/-- `Path::join` with a single textual component. -/
def RustPath.join (p : RustPath) (s : String) : RustPath :=
  ⟨p.repr ++ "/" ++ s, p.validUnicode⟩

/-- `Path::to_str`. -/
def RustPath.toStr (p : RustPath) : Option String :=
  if p.validUnicode then some p.repr else none

/-- The crate's `Error` enum (`Io` without its wrapped payload). -/
inductive Error where
  | io : Error
  | invalidSrcPath : Error
  | tailwindInstallError : Error
deriving DecidableEq

/-- Outcome of running a piece of the build script: normal result, typed
error (Rust `Err`), or process abort (Rust `panic!` / `.expect` /
`.unwrap`). -/
inductive Res (α : Type) where
  | ok (a : α) : Res α
  | err (e : Error) : Res α
  | panicked (msg : String) : Res α
deriving DecidableEq

/-- Externally visible actions of the build script, in order: `println!`
output (cargo directives, warnings and logs), file writes, file copies,
and subprocess invocations. -/
inductive Event where
  | println (s : String) : Event
  | write (path content : String) : Event
  | copy (src dst : String) : Event
  | runNpmInstall (cwd : String) : Event
  | runNpxTailwind (input output cwd : String) : Event
deriving DecidableEq

/-- The ambient state a build invocation runs against: file contents,
directory existence, and the exit status the two external commands would
report. -/
structure World where
  files : String → Option String
  dirs : String → Bool
  npmInstallSucceeds : Bool
  npxSucceeds : Bool

/-- `Path::exists`: true when a file or a directory is at the path. -/
def World.pathExists (w : World) (p : String) : Bool :=
  (w.files p).isSome || w.dirs p

/-- `fs::write` (modelled as always succeeding). -/
def World.writeFile (w : World) (p c : String) : World :=
  { w with files := fun q => if q = p then some c else w.files q }

/-- Read a file's content, `none` when absent or not a regular file. -/
def World.readFile (w : World) (p : String) : Option String :=
  w.files p

/-- The configuration snapshot built by the crate's builder methods. -/
structure BuildConfig where
  css_path : Option RustPath
  always : Bool
  tailwind_config : Json
  cdn_src : String

/-- `BuildConfig::new`: no custom stylesheet, the default tailwind config
document, the default CDN url, `always = false`. -/
def BuildConfig.new : BuildConfig :=
  { css_path := none
    tailwind_config := Json.obj
      [("content", Json.arr [Json.str "\x7bsrc_dir\x7d/**/*.\x7bhtml,js,rs\x7d"]),
       ("theme", Json.obj [("extend", Json.obj [])]),
       ("plugins", Json.arr [])]
    cdn_src := "https://cdn.tailwindcss.com"
    always := false }

/-- `BuildConfig::with_path`. -/
def BuildConfig.with_path (c : BuildConfig) (p : Option RustPath) : BuildConfig :=
  { c with css_path := p }

/-- `BuildConfig::with_cdn_src`. -/
def BuildConfig.with_cdn_src (c : BuildConfig) (s : String) : BuildConfig :=
  { c with cdn_src := s }

/-- `BuildConfig::with_tw_config`. -/
def BuildConfig.with_tw_config (c : BuildConfig) (config : Json) : BuildConfig :=
  { c with tailwind_config := config }

/-- `BuildConfig::always` (primed: the field of the same name holds the
flag). -/
def BuildConfig.always' (c : BuildConfig) : BuildConfig :=
  { c with always := true }

/-- `BuildConfig::is_release`, as a function of the `PROFILE` environment
variable; returns the boolean plus the `println!` output it produces. -/
def is_release (profile : Option String) : Bool × List Event :=
  let ev0 := [Event.println "cargo:rerun-if-env-changed=PROFILE"]
  match profile with
  | some v =>
    if v = "release" then (true, ev0)
    else if v = "debug" then (false, ev0)
    else
      (false, ev0 ++
        [Event.println ("cargo:warning='PROFILE' was neither release nor debug ('" ++ v ++ "')")])
  | none =>
    (false, ev0 ++
      [Event.println "cargo:warning='PROFILE' was not defined, defaulting to debug"])

/-- `BuildConfig::DEFAULT_PACKAGE_JSON`. -/
def DEFAULT_PACKAGE_JSON : String :=
  "\x7b\n    \"name\": \"include-tailwind\",\n    \"version\": \"1.0.0\",\n    \"description\": \"the autogenerated package.json for include-tailwind\",\n    \"devDependencies\": \x7b\n        \"tailwindcss\": \"^3.4.4\"\n    \x7d\n\x7d\n"

/-- `BuildConfig::DEFAULT_STYLE_CSS`. -/
def DEFAULT_STYLE_CSS : String :=
  "\n@tailwind base;\n@tailwind components;\n@tailwind utilities;\n"

/-- `BuildConfig::config_string`: serialize the tailwind config document
and substitute the source directory for the placeholder; fails with
`InvalidSrcPath` when the source directory is not valid unicode. -/
def config_string (config : Json) (src_dir : RustPath) : Except Error String :=
  match src_dir.toStr with
  | none => Except.error Error.invalidSrcPath
  | some s => Except.ok (rustReplace (toStringPretty config) srcDirTok s)

/-- `BuildConfig::install_tailwind`.  Step 1 creates `package.json` when
absent; step 2 runs `npm install` when `node_modules` is absent (a failed
install panics); step 3 renders and always rewrites
`tailwind.config.js`. -/
def install_tailwind (cfg : BuildConfig) (out_dir src_dir : RustPath) (w : World) :
    Res Unit × World × List Event :=
  let package_json_path := out_dir.join "package.json"
  let node_modules_path := out_dir.join "node_modules"
  let tw_config_path := out_dir.join "tailwind.config.js"
  let step1 : World × List Event :=
    if !(w.pathExists package_json_path.repr) then
      (w.writeFile package_json_path.repr DEFAULT_PACKAGE_JSON,
       [Event.println ("creating package.json (\"" ++ package_json_path.repr ++ "\")"),
        Event.write package_json_path.repr DEFAULT_PACKAGE_JSON])
    else
      (w, [Event.println "package.json already exists, not creating another one"])
  let w1 := step1.1
  let ev1 := step1.2
  if !(w1.pathExists node_modules_path.repr) && !w1.npmInstallSucceeds then
    (Res.panicked "could not install tailwind", w1,
     ev1 ++ [Event.println "installing tailwind", Event.runNpmInstall out_dir.repr])
  else
    let ev2 := ev1 ++
      (if !(w1.pathExists node_modules_path.repr) then
        [Event.println "installing tailwind", Event.runNpmInstall out_dir.repr]
      else
        [Event.println "node_modules already exists, not installing"])
    let ev3 := ev2 ++
      [Event.println ("writing tailwind config (\"" ++ tw_config_path.repr ++ "\")")]
    match config_string cfg.tailwind_config src_dir with
    | Except.error e => (Res.err e, w1, ev3)
    | Except.ok cs =>
      let config := "\n            module.exports = " ++ cs ++ "\n        "
      (Res.ok (), w1.writeFile tw_config_path.repr config,
       ev3 ++ [Event.write tw_config_path.repr config])

/-- The stylesheet-resolution prelude of `BuildConfig::compile_tailwind`
(inlined in the source): a custom path must exist or the script panics,
and its content is copied; else the conventional `style.css` is copied
when present; else the built-in default stylesheet is written. -/
def resolve_stylesheet (cfg : BuildConfig) (out_dir : RustPath) (w : World) :
    Res Unit × World × List Event :=
  let tw_in_path := out_dir.join "style.in.css"
  match cfg.css_path with
  | some p =>
    let ev := [Event.println ("cargo:rerun-if-changed=" ++ p.repr)]
    if w.pathExists p.repr then
      let ev2 := ev ++ [Event.println ("copying \"" ++ p.repr ++ "\" to build css")]
      match w.readFile p.repr with
      | some content =>
        (Res.ok (), w.writeFile tw_in_path.repr content,
         ev2 ++ [Event.copy p.repr tw_in_path.repr])
      | none => (Res.err Error.io, w, ev2)
    else
      (Res.panicked "specified a css path but it does not exists", w, ev)
  | none =>
    if w.pathExists "style.css" then
      let ev2 := [Event.println "copying style.css (default path)"]
      match w.readFile "style.css" with
      | some content =>
        (Res.ok (), w.writeFile tw_in_path.repr content,
         ev2 ++ [Event.copy "style.css" tw_in_path.repr])
      | none => (Res.err Error.io, w, ev2)
    else
      (Res.ok (), w.writeFile tw_in_path.repr DEFAULT_STYLE_CSS,
       [Event.println "creating default style.css",
        Event.write tw_in_path.repr DEFAULT_STYLE_CSS])

/-- `BuildConfig::compile_tailwind`.  Step 4 resolves the input
stylesheet (`resolve_stylesheet`); step 5 runs `npx tailwindcss`
(non-success panics); step 6 emits the compiled stylesheet's path. -/
def compile_tailwind (cfg : BuildConfig) (out_dir : RustPath) (w : World) :
    Res Unit × World × List Event :=
  let tw_in_path := out_dir.join "style.in.css"
  let tw_out_path := out_dir.join "style.css"
  match resolve_stylesheet cfg out_dir w with
  | (Res.ok _, w1, ev1) =>
    let ev2 := ev1 ++ [Event.runNpxTailwind tw_in_path.repr tw_out_path.repr out_dir.repr]
    if w1.npxSucceeds then
      match tw_out_path.toStr with
      | some s =>
        (Res.ok (), w1,
         ev2 ++ [Event.println ("cargo:rustc-env=INCLUDE_TAILWIND_PATH=" ++ s)])
      | none => (Res.panicked "called Option.unwrap on a None value", w1, ev2)
    else
      (Res.panicked "could not build styles", w1, ev2)
  | (Res.err e, w1, ev1) => (Res.err e, w1, ev1)
  | (Res.panicked m, w1, ev1) => (Res.panicked m, w1, ev1)

/-- `BuildConfig::setup_jit`: render the config, write it as a script
assigning `tailwind.config`, and emit the script path and the CDN url. -/
def setup_jit (cfg : BuildConfig) (out_dir src_dir : RustPath) (w : World) :
    Res Unit × World × List Event :=
  match config_string cfg.tailwind_config src_dir with
  | Except.error e => (Res.err e, w, [])
  | Except.ok cs =>
    let jit_config_path := out_dir.join "jit_config.js"
    let config := "tailwind.config = " ++ cs
    let w1 := w.writeFile jit_config_path.repr config
    let ev := [Event.write jit_config_path.repr config]
    match jit_config_path.toStr with
    | some s =>
      (Res.ok (), w1,
       ev ++ [Event.println ("cargo:rustc-env=INCLUDE_TAILWIND_JIT_CONFIG_PATH=" ++ s),
              Event.println ("cargo:rustc-env=INCLUDE_TAILWIND_JIT_URL=" ++ cfg.cdn_src)])
    | none => (Res.panicked "called Option.unwrap on a None value", w1, ev)

/-- The `install_tailwind` / `compile_tailwind` sequence of the release
branch of `BuildConfig::build`, with `?`-propagation on the first call. -/
def installAndCompile (cfg : BuildConfig) (out_dir src_dir : RustPath) (w : World) :
    Res Unit × World × List Event :=
  match install_tailwind cfg out_dir src_dir w with
  | (Res.ok _, w1, ev1) =>
    let c := compile_tailwind cfg out_dir w1
    (c.1, c.2.1, ev1 ++ c.2.2)
  | (Res.err e, w1, ev1) => (Res.err e, w1, ev1)
  | (Res.panicked m, w1, ev1) => (Res.panicked m, w1, ev1)

/-- The environment a build invocation reads: the `PROFILE` variable, the
`OUT_DIR` variable, and the result of `fs::canonicalize("./src")`
(`none` models canonicalization failure, which `build` turns into a
panic via `.expect`). -/
structure Env where
  profile : Option String
  out_dir : Option String
  src_canon : Option RustPath

/-- `BuildConfig::build`: read `OUT_DIR` (panic when absent),
canonicalize `./src` (panic on failure), detect the profile, and run
either the install+compile pipeline or the JIT setup. -/
def build (cfg : BuildConfig) (env : Env) (w : World) :
    Res Unit × World × List Event :=
  match env.out_dir with
  | none => (Res.panicked "OUT_DIR not provided", w, [])
  | some o =>
    match env.src_canon with
    | none => (Res.panicked "could not canonicalize", w, [])
    | some src_dir =>
      let out_dir : RustPath := ⟨o, true⟩
      let pr := is_release env.profile
      if pr.1 || cfg.always then
        let t := installAndCompile cfg out_dir src_dir w
        (t.1, t.2.1, pr.2 ++ t.2.2)
      else
        let t := setup_jit cfg out_dir src_dir w
        (t.1, t.2.1, pr.2 ++ t.2.2)

/-- The spec's `BuildProfile` value space. -/
inductive Profile where
  | release : Profile
  | debug : Profile
  | unknown : Profile
deriving DecidableEq

/-- Modelled from the spec: the Profile Detector's normalization of the
environment signal into the spec's `BuildProfile` enumeration (value
exactly "release" is Release, exactly "debug" is Debug, anything else —
including a missing variable — is Unknown, which degrades to Debug
behaviour). -/
def detectProfile : Option String → Profile
  | some v =>
    if v = "release" then Profile.release
    else if v = "debug" then Profile.debug
    else Profile.unknown
  | none => Profile.unknown

/-- The contents of all `Event.write`s to path `p`, in trace order. -/
def writesTo (tr : List Event) (p : String) : List String :=
  tr.filterMap fun e =>
    match e with
    | Event.write q c => if q = p then some c else none
    | _ => none

/-- The number of file-write events in a trace. -/
def countWrites (tr : List Event) : Nat :=
  tr.countP fun e =>
    match e with
    | Event.write _ _ => true
    | _ => false

/-- Whether an event is a subprocess invocation. -/
def isCommandEvent : Event → Bool
  | Event.runNpmInstall _ => true
  | Event.runNpxTailwind _ _ _ => true
  | _ => false

/-- The JIT script text `setup_jit` writes for a given config document
and source-directory text. -/
def jitScriptText (config : Json) (sps : String) : String :=
  "tailwind.config = " ++ rustReplace (toStringPretty config) srcDirTok sps

/-- The `tailwind.config.js` text `install_tailwind` writes for a given
rendered config string. -/
def moduleExportsWrap (cs : String) : String :=
  "\n            module.exports = " ++ cs ++ "\n        "

theorem replaceLF_fuel_irrel (p : Char) (ps rep : List Char) :
    ∀ (n m : Nat) (l : List Char), l.length ≤ n → l.length ≤ m →
      replaceLF p ps rep n l = replaceLF p ps rep m l := by
  intro n
  induction n with
  | zero =>
    intro m l hn _
    have hnil : l = [] := List.eq_nil_of_length_eq_zero (Nat.le_zero.mp hn)
    subst hnil
    cases m <;> rfl
  | succ n ih =>
    intro m l hn hm
    rcases l with _ | ⟨c, l'⟩
    · cases m <;> rfl
    · rcases m with _ | m'
      · exact absurd hm (by simp)
      · simp only [replaceLF]
        by_cases hpre : (p :: ps).isPrefixOf (c :: l') = true
        · rw [if_pos hpre, if_pos hpre]
          have h1 : (l'.drop ps.length).length ≤ n := by
            simp only [List.length_drop]
            simp only [List.length_cons] at hn
            omega
          have h2 : (l'.drop ps.length).length ≤ m' := by
            simp only [List.length_drop]
            simp only [List.length_cons] at hm
            omega
          rw [ih m' (l'.drop ps.length) h1 h2]
        · rw [if_neg hpre, if_neg hpre]
          have h1 : l'.length ≤ n := by simp at hn; omega
          have h2 : l'.length ≤ m' := by simp at hm; omega
          rw [ih m' l' h1 h2]

theorem replaceL_nil (p : Char) (ps rep : List Char) : replaceL p ps rep [] = [] := rfl

theorem replaceL_cons (p : Char) (ps rep : List Char) (c : Char) (l : List Char) :
    replaceL p ps rep (c :: l) =
      if (p :: ps).isPrefixOf (c :: l) then
        rep ++ replaceL p ps rep (l.drop ps.length)
      else
        c :: replaceL p ps rep l := by
  show replaceLF p ps rep ((c :: l).length) (c :: l) = _
  have hlen : (c :: l).length = l.length + 1 := rfl
  rw [hlen]
  simp only [replaceLF]
  by_cases hpre : (p :: ps).isPrefixOf (c :: l) = true
  · rw [if_pos hpre, if_pos hpre]
    have h := replaceLF_fuel_irrel p ps rep l.length (l.drop ps.length).length
      (l.drop ps.length) (by simp [List.length_drop]) (le_refl _)
    rw [h]
    rfl
  · rw [if_neg hpre, if_neg hpre]
    rfl

theorem string_data_inj {s t : String} (h : s.data = t.data) : s = t :=
  String.ext h

theorem join_repr_inj (p : RustPath) (a b : String) :
    (p.join a).repr = (p.join b).repr ↔ a = b := by
  constructor
  · intro h
    have hd := congrArg String.data h
    simp only [RustPath.join, String.data_append] at hd
    exact string_data_inj (List.append_cancel_left hd)
  · intro h; rw [h]

@[simp]
theorem files_writeFile (w : World) (p c q : String) :
    (w.writeFile p c).files q = if q = p then some c else w.files q := rfl

@[simp]
theorem readFile_writeFile (w : World) (p c q : String) :
    (w.writeFile p c).readFile q = if q = p then some c else w.readFile q := rfl

@[simp]
theorem dirs_writeFile (w : World) (p c : String) :
    (w.writeFile p c).dirs = w.dirs := rfl

@[simp]
theorem npm_writeFile (w : World) (p c : String) :
    (w.writeFile p c).npmInstallSucceeds = w.npmInstallSucceeds := rfl

@[simp]
theorem npx_writeFile (w : World) (p c : String) :
    (w.writeFile p c).npxSucceeds = w.npxSucceeds := rfl

@[simp]
theorem pathExists_writeFile (w : World) (p c q : String) :
    (w.writeFile p c).pathExists q = if q = p then true else w.pathExists q := by
  simp only [World.pathExists, files_writeFile, dirs_writeFile]
  split
  · simp
  · rfl

/-- C1: for every configuration and profile value, the build selects the
Install+Compile branch exactly when the detected profile is Release or the
`always` flag is set; in every other case (Debug or Unknown profile with
the flag clear) it selects the JIT-setup branch, and `build` is the
selected pipeline's outcome prefixed by the profile-detection output. -/
theorem c1_build_mode_selection (cfg : BuildConfig) (prof : Option String)
    (o : String) (sp : RustPath) (w : World) :
    (((is_release prof).1 || cfg.always) = true ↔
      (detectProfile prof = Profile.release ∨ cfg.always = true)) ∧
    build cfg ⟨prof, some o, some sp⟩ w =
      (if ((is_release prof).1 || cfg.always) = true then
        ((installAndCompile cfg ⟨o, true⟩ sp w).1,
         (installAndCompile cfg ⟨o, true⟩ sp w).2.1,
         (is_release prof).2 ++ (installAndCompile cfg ⟨o, true⟩ sp w).2.2)
      else
        ((setup_jit cfg ⟨o, true⟩ sp w).1,
         (setup_jit cfg ⟨o, true⟩ sp w).2.1,
         (is_release prof).2 ++ (setup_jit cfg ⟨o, true⟩ sp w).2.2)) := by
  constructor
  · match prof with
    | none => simp [is_release, detectProfile]
    | some v =>
      by_cases hv : v = "release"
      · simp [is_release, detectProfile, hv]
      · by_cases hd : v = "debug" <;> simp [is_release, detectProfile, hv, hd]
  · simp only [build]

/-- C5: the profile detector maps the environment value "release" to the
release signal, "debug" to debug, any other (non-empty) value to debug
behaviour with a warning directive (never a failure: `is_release` is a
total function), and a missing variable to debug behaviour with an
undetermined-profile warning. -/
theorem c5_profile_detector (v : String) (h1 : v ≠ "") (h2 : v ≠ "release")
    (h3 : v ≠ "debug") :
    is_release (some "release") =
      (true, [Event.println "cargo:rerun-if-env-changed=PROFILE"]) ∧
    is_release (some "debug") =
      (false, [Event.println "cargo:rerun-if-env-changed=PROFILE"]) ∧
    is_release (some v) =
      (false,
       [Event.println "cargo:rerun-if-env-changed=PROFILE",
        Event.println
          ("cargo:warning='PROFILE' was neither release nor debug ('" ++ v ++ "')")]) ∧
    is_release none =
      (false,
       [Event.println "cargo:rerun-if-env-changed=PROFILE",
        Event.println "cargo:warning='PROFILE' was not defined, defaulting to debug"]) := by
  refine ⟨by simp [is_release], by simp [is_release], ?_, by simp [is_release]⟩
  simp [is_release, h2, h3]

theorem c5_profile_detector_witness :
    ("production" : String) ≠ "" ∧ ("production" : String) ≠ "release" ∧
    ("production" : String) ≠ "debug" ∧
    is_release (some "production") =
      (false,
       [Event.println "cargo:rerun-if-env-changed=PROFILE",
        Event.println
          ("cargo:warning='PROFILE' was neither release nor debug ('" ++ "production" ++ "')")]) :=
  ⟨by decide, by decide, by decide,
   (c5_profile_detector "production" (by decide) (by decide) (by decide)).2.2.1⟩

/-- C10: each builder operation updates exactly its own field of the
configuration snapshot, leaves the other three fields unchanged, and for
each operation the last call before `build` wins. -/
theorem c10_builder_frame (c : BuildConfig) (p q : Option RustPath) (s t : String)
    (j k : Json) :
    ((c.with_path p).css_path = p ∧ (c.with_path p).always = c.always ∧
     (c.with_path p).tailwind_config = c.tailwind_config ∧
     (c.with_path p).cdn_src = c.cdn_src) ∧
    ((c.with_cdn_src s).cdn_src = s ∧ (c.with_cdn_src s).css_path = c.css_path ∧
     (c.with_cdn_src s).always = c.always ∧
     (c.with_cdn_src s).tailwind_config = c.tailwind_config) ∧
    ((c.with_tw_config j).tailwind_config = j ∧
     (c.with_tw_config j).css_path = c.css_path ∧
     (c.with_tw_config j).always = c.always ∧
     (c.with_tw_config j).cdn_src = c.cdn_src) ∧
    (c.always'.always = true ∧ c.always'.css_path = c.css_path ∧
     c.always'.tailwind_config = c.tailwind_config ∧
     c.always'.cdn_src = c.cdn_src) ∧
    ((c.with_path p).with_path q = c.with_path q ∧
     (c.with_cdn_src s).with_cdn_src t = c.with_cdn_src t ∧
     (c.with_tw_config j).with_tw_config k = c.with_tw_config k ∧
     c.always'.always' = c.always') :=
  ⟨⟨rfl, rfl, rfl, rfl⟩, ⟨rfl, rfl, rfl, rfl⟩, ⟨rfl, rfl, rfl, rfl⟩,
   ⟨rfl, rfl, rfl, rfl⟩, ⟨rfl, rfl, rfl, rfl⟩⟩

/-- C2: the rendered configuration text written by the Install+Compile
pipeline (inside `tailwind.config.js`) and the one written by the JIT
pipeline (inside `jit_config.js`) embed the identical rendered string
`cs`, produced by the one shared renderer `config_string` applied to the
same configuration document and source directory. -/
theorem c2_shared_renderer (cfg : BuildConfig) (out sp : RustPath) (w₁ w₂ : World)
    (cs : String) (hcs : config_string cfg.tailwind_config sp = Except.ok cs)
    (hnpm : w₁.npmInstallSucceeds = true) :
    writesTo (install_tailwind cfg out sp w₁).2.2 (out.join "tailwind.config.js").repr
      = [moduleExportsWrap cs] ∧
    writesTo (setup_jit cfg out sp w₂).2.2 (out.join "jit_config.js").repr
      = ["tailwind.config = " ++ cs] := by
  constructor
  · simp only [install_tailwind, hcs]
    split_ifs with h1 h2 h3 h4 h5 <;>
      simp_all [writesTo, join_repr_inj, apply_ite, hnpm, moduleExportsWrap]
  · simp only [setup_jit, hcs]
    split <;> simp_all [writesTo]

theorem c2_shared_renderer_witness :
    config_string BuildConfig.new.tailwind_config ⟨"/proj/src", true⟩ =
      Except.ok (rustReplace (toStringPretty BuildConfig.new.tailwind_config) srcDirTok "/proj/src") ∧
    (World.mk (fun _ => none) (fun _ => false) true true).npmInstallSucceeds = true ∧
    writesTo
      (install_tailwind BuildConfig.new ⟨"/out", true⟩ ⟨"/proj/src", true⟩
        (World.mk (fun _ => none) (fun _ => false) true true)).2.2
      ((RustPath.mk "/out" true).join "tailwind.config.js").repr
      = [moduleExportsWrap (rustReplace (toStringPretty BuildConfig.new.tailwind_config) srcDirTok "/proj/src")] ∧
    writesTo
      (setup_jit BuildConfig.new ⟨"/out", true⟩ ⟨"/proj/src", true⟩
        (World.mk (fun _ => none) (fun _ => false) true true)).2.2
      ((RustPath.mk "/out" true).join "jit_config.js").repr
      = ["tailwind.config = " ++ rustReplace (toStringPretty BuildConfig.new.tailwind_config) srcDirTok "/proj/src"] := by
  refine ⟨rfl, rfl, ?_⟩
  exact c2_shared_renderer BuildConfig.new ⟨"/out", true⟩ ⟨"/proj/src", true⟩
    (World.mk (fun _ => none) (fun _ => false) true true)
    (World.mk (fun _ => none) (fun _ => false) true true)
    (rustReplace (toStringPretty BuildConfig.new.tailwind_config) srcDirTok "/proj/src")
    rfl rfl

/-- C8: with no custom stylesheet path and no conventional `style.css`
present, step 4 writes the built-in default stylesheet (the three
standard directives) byte-for-byte as the input stylesheet. -/
theorem c8_default_stylesheet (cfg : BuildConfig) (out : RustPath) (w : World)
    (h1 : cfg.css_path = none) (h2 : w.pathExists "style.css" = false) :
    writesTo (compile_tailwind cfg out w).2.2 (out.join "style.in.css").repr
      = [DEFAULT_STYLE_CSS] ∧
    (compile_tailwind cfg out w).2.1.readFile (out.join "style.in.css").repr
      = some DEFAULT_STYLE_CSS := by
  have hres : resolve_stylesheet cfg out w =
      (Res.ok (), w.writeFile (out.join "style.in.css").repr DEFAULT_STYLE_CSS,
       [Event.println "creating default style.css",
        Event.write (out.join "style.in.css").repr DEFAULT_STYLE_CSS]) := by
    simp [resolve_stylesheet, h1, h2]
  simp only [compile_tailwind, hres]
  split_ifs <;> (repeat' split) <;> simp_all [writesTo, World.readFile]

theorem c8_default_stylesheet_witness :
    (BuildConfig.new).css_path = none ∧
    (World.mk (fun _ => none) (fun _ => false) true true).pathExists "style.css" = false ∧
    writesTo
      (compile_tailwind BuildConfig.new ⟨"/out", true⟩
        (World.mk (fun _ => none) (fun _ => false) true true)).2.2
      ((RustPath.mk "/out" true).join "style.in.css").repr = [DEFAULT_STYLE_CSS] ∧
    (compile_tailwind BuildConfig.new ⟨"/out", true⟩
        (World.mk (fun _ => none) (fun _ => false) true true)).2.1.readFile
      ((RustPath.mk "/out" true).join "style.in.css").repr = some DEFAULT_STYLE_CSS := by
  refine ⟨rfl, rfl, ?_⟩
  exact c8_default_stylesheet BuildConfig.new ⟨"/out", true⟩
    (World.mk (fun _ => none) (fun _ => false) true true) rfl rfl

theorem install_no_npx (cfg : BuildConfig) (out sp : RustPath) (w : World)
    (i o d : String) :
    Event.runNpxTailwind i o d ∉ (install_tailwind cfg out sp w).2.2 := by
  simp only [install_tailwind]
  split_ifs <;> (try split) <;> simp

theorem resolve_no_npm (cfg : BuildConfig) (out : RustPath) (w : World) (d : String) :
    Event.runNpmInstall d ∉ (resolve_stylesheet cfg out w).2.2 := by
  rcases hc : cfg.css_path with _ | p <;>
    simp only [resolve_stylesheet, hc] <;>
    split_ifs <;> (repeat' split) <;> simp_all

theorem compile_no_npm (cfg : BuildConfig) (out : RustPath) (w : World) (d : String) :
    Event.runNpmInstall d ∉ (compile_tailwind cfg out w).2.2 := by
  have hr := resolve_no_npm cfg out w d
  rcases hres : resolve_stylesheet cfg out w with ⟨r, w1, ev1⟩
  rw [hres] at hr
  rcases r with a | e | m <;> simp only [compile_tailwind, hres] <;>
    (try split_ifs) <;> (repeat' split) <;> simp_all

theorem install_manifest_frame (cfg : BuildConfig) (out sp : RustPath) (w : World)
    (h : w.pathExists (out.join "package.json").repr = true) :
    (install_tailwind cfg out sp w).2.1.files (out.join "package.json").repr
      = w.files (out.join "package.json").repr ∧
    ∀ c, Event.write (out.join "package.json").repr c
      ∉ (install_tailwind cfg out sp w).2.2 := by
  have hne : (out.join "package.json").repr ≠ (out.join "tailwind.config.js").repr := by
    rw [Ne, join_repr_inj]; decide
  simp only [install_tailwind, h, Bool.not_true, Bool.false_eq_true, if_false]
  split_ifs <;> (try split) <;> simp [hne]

theorem install_frame (cfg : BuildConfig) (out sp : RustPath) (w : World) (q : String)
    (hq1 : q ≠ (out.join "package.json").repr)
    (hq2 : q ≠ (out.join "tailwind.config.js").repr) :
    (install_tailwind cfg out sp w).2.1.files q = w.files q ∧
    (install_tailwind cfg out sp w).2.1.dirs = w.dirs := by
  simp only [install_tailwind]
  split_ifs <;> (try split) <;> simp [hq1, hq2]

theorem resolve_frame (cfg : BuildConfig) (out : RustPath) (w : World) (q : String)
    (hq : q ≠ (out.join "style.in.css").repr) :
    (resolve_stylesheet cfg out w).2.1.files q = w.files q ∧
    ∀ c, Event.write q c ∉ (resolve_stylesheet cfg out w).2.2 := by
  rcases hc : cfg.css_path with _ | p <;>
    simp only [resolve_stylesheet, hc] <;>
    split_ifs <;> (repeat' split) <;> simp_all [hq]

theorem compile_frame (cfg : BuildConfig) (out : RustPath) (w : World) (q : String)
    (hq : q ≠ (out.join "style.in.css").repr) :
    (compile_tailwind cfg out w).2.1.files q = w.files q ∧
    ∀ c, Event.write q c ∉ (compile_tailwind cfg out w).2.2 := by
  have hr := resolve_frame cfg out w q hq
  rcases hres : resolve_stylesheet cfg out w with ⟨r, w1, ev1⟩
  rw [hres] at hr
  rcases r with a | e | m <;> simp only [compile_tailwind, hres] <;>
    (try split_ifs) <;> (repeat' split) <;> simp_all

theorem install_npm_gating (cfg : BuildConfig) (out sp : RustPath) (w : World) :
    (∃ d, Event.runNpmInstall d ∈ (install_tailwind cfg out sp w).2.2) ↔
      w.pathExists (out.join "node_modules").repr = false := by
  have hne : (out.join "node_modules").repr ≠ (out.join "package.json").repr := by
    rw [Ne, join_repr_inj]; decide
  simp only [install_tailwind]
  by_cases h1 : w.pathExists (out.join "package.json").repr <;>
    by_cases h2 : w.pathExists (out.join "node_modules").repr <;>
      simp only [h1, h2, Bool.not_true, Bool.not_false, Bool.false_eq_true, if_false,
        if_true, pathExists_writeFile, if_neg hne, npm_writeFile] <;>
      (try split_ifs) <;> (repeat' split) <;> simp_all

/-- C6: when the package manifest already exists in the output directory,
a run of the Install+Compile pipeline never emits a write to the manifest
and leaves the manifest's content unchanged. -/
theorem c6_manifest_preserved (cfg : BuildConfig) (out sp : RustPath) (w : World)
    (h : w.pathExists (out.join "package.json").repr = true) :
    (installAndCompile cfg out sp w).2.1.readFile (out.join "package.json").repr
      = w.readFile (out.join "package.json").repr ∧
    ∀ c, Event.write (out.join "package.json").repr c
      ∉ (installAndCompile cfg out sp w).2.2 := by
  have hif := install_manifest_frame cfg out sp w h
  rcases hinst : install_tailwind cfg out sp w with ⟨r, w1, ev1⟩
  rw [hinst] at hif
  rcases r with a | e | m
  · have hcf := compile_frame cfg out w1 (out.join "package.json").repr
      (by rw [Ne, join_repr_inj]; decide)
    simp only [installAndCompile, hinst]
    constructor
    · simpa [World.readFile] using hcf.1.trans hif.1
    · intro c
      simp only [List.mem_append, not_or]
      exact ⟨hif.2 c, hcf.2 c⟩
  · simp only [installAndCompile, hinst]
    exact ⟨hif.1, hif.2⟩
  · simp only [installAndCompile, hinst]
    exact ⟨hif.1, hif.2⟩

theorem c6_manifest_preserved_witness :
    (World.mk (fun p => if p = "/out/package.json" then some "manifest" else none)
      (fun _ => false) true true).pathExists
      ((RustPath.mk "/out" true).join "package.json").repr = true ∧
    (installAndCompile BuildConfig.new ⟨"/out", true⟩ ⟨"/proj/src", true⟩
      (World.mk (fun p => if p = "/out/package.json" then some "manifest" else none)
        (fun _ => false) true true)).2.1.readFile
      ((RustPath.mk "/out" true).join "package.json").repr
      = (World.mk (fun p => if p = "/out/package.json" then some "manifest" else none)
          (fun _ => false) true true).readFile
        ((RustPath.mk "/out" true).join "package.json").repr ∧
    ∀ c, Event.write ((RustPath.mk "/out" true).join "package.json").repr c
      ∉ (installAndCompile BuildConfig.new ⟨"/out", true⟩ ⟨"/proj/src", true⟩
          (World.mk (fun p => if p = "/out/package.json" then some "manifest" else none)
            (fun _ => false) true true)).2.2 := by
  refine ⟨by decide, ?_⟩
  have := c6_manifest_preserved BuildConfig.new ⟨"/out", true⟩ ⟨"/proj/src", true⟩
    (World.mk (fun p => if p = "/out/package.json" then some "manifest" else none)
      (fun _ => false) true true) (by decide)
  exact this

/-- C7: during a run of the Install+Compile pipeline the external
package-installation command is invoked exactly when the dependency-cache
directory (`node_modules`) is absent from the output directory at the
start of the run; in particular it is never invoked when the directory
already exists. -/
theorem c7_npm_install_gating (cfg : BuildConfig) (out sp : RustPath) (w : World) :
    (∃ d, Event.runNpmInstall d ∈ (installAndCompile cfg out sp w).2.2) ↔
      w.pathExists (out.join "node_modules").repr = false := by
  have hgate := install_npm_gating cfg out sp w
  rcases hinst : install_tailwind cfg out sp w with ⟨r, w1, ev1⟩
  rw [hinst] at hgate
  rcases r with a | e | m <;> simp only [installAndCompile, hinst]
  · rw [← hgate]
    constructor
    · rintro ⟨d, hd⟩
      rcases List.mem_append.mp hd with hd | hd
      · exact ⟨d, hd⟩
      · exact absurd hd (compile_no_npm cfg out w1 d)
    · rintro ⟨d, hd⟩
      exact ⟨d, List.mem_append.mpr (Or.inl hd)⟩
  · exact hgate
  · exact hgate

/-- C4 (amended): with a custom stylesheet path that is set, names none
of the pipeline's own freshly written files, and points at a nonexistent
file, the Install+Compile pipeline never completes successfully and the
external compile command is never invoked; the package-installation
command, however, may still run (step 2 precedes the stylesheet check of
step 4). -/
theorem c4_fail_before_compile (cfg : BuildConfig) (out sp : RustPath) (w : World)
    (p : RustPath) (hp : cfg.css_path = some p)
    (habs : w.pathExists p.repr = false)
    (hpj : p.repr ≠ (out.join "package.json").repr)
    (htwc : p.repr ≠ (out.join "tailwind.config.js").repr) :
    (installAndCompile cfg out sp w).1 ≠ Res.ok () ∧
    ∀ i o d, Event.runNpxTailwind i o d ∉ (installAndCompile cfg out sp w).2.2 := by
  rcases hinst : install_tailwind cfg out sp w with ⟨r, w1, ev1⟩
  rcases r with a | e | m
  · have h1 : w1.files p.repr = w.files p.repr := by
      have h := (install_frame cfg out sp w p.repr hpj htwc).1
      rw [hinst] at h; exact h
    have h2 : w1.dirs = w.dirs := by
      have h := (install_frame cfg out sp w p.repr hpj htwc).2
      rw [hinst] at h; exact h
    have hw1 : w1.pathExists p.repr = false := by
      simp only [World.pathExists, h1, h2]
      exact habs
    have hcomp : compile_tailwind cfg out w1 =
        (Res.panicked "specified a css path but it does not exists", w1,
         [Event.println ("cargo:rerun-if-changed=" ++ p.repr)]) := by
      have hres : resolve_stylesheet cfg out w1 =
          (Res.panicked "specified a css path but it does not exists", w1,
           [Event.println ("cargo:rerun-if-changed=" ++ p.repr)]) := by
        simp [resolve_stylesheet, hp, hw1]
      simp [compile_tailwind, hres]
    simp only [installAndCompile, hinst, hcomp]
    refine ⟨by simp, ?_⟩
    intro i o d
    simp only [List.mem_append, not_or]
    refine ⟨?_, by simp⟩
    have h := install_no_npx cfg out sp w i o d
    rw [hinst] at h; exact h
  · simp only [installAndCompile, hinst]
    refine ⟨by simp, ?_⟩
    intro i o d
    have h := install_no_npx cfg out sp w i o d
    rw [hinst] at h; exact h
  · simp only [installAndCompile, hinst]
    refine ⟨by simp, ?_⟩
    intro i o d
    have h := install_no_npx cfg out sp w i o d
    rw [hinst] at h; exact h

theorem c4_fail_before_compile_witness :
    (BuildConfig.new.with_path (some ⟨"/missing.css", true⟩)).css_path
      = some (RustPath.mk "/missing.css" true) ∧
    (World.mk (fun _ => none) (fun _ => false) true true).pathExists
      (RustPath.mk "/missing.css" true).repr = false ∧
    (RustPath.mk "/missing.css" true).repr
      ≠ ((RustPath.mk "/out" true).join "package.json").repr ∧
    (RustPath.mk "/missing.css" true).repr
      ≠ ((RustPath.mk "/out" true).join "tailwind.config.js").repr ∧
    (installAndCompile (BuildConfig.new.with_path (some ⟨"/missing.css", true⟩))
      ⟨"/out", true⟩ ⟨"/proj/src", true⟩
      (World.mk (fun _ => none) (fun _ => false) true true)).1 ≠ Res.ok () ∧
    ∀ i o d, Event.runNpxTailwind i o d
      ∉ (installAndCompile (BuildConfig.new.with_path (some ⟨"/missing.css", true⟩))
          ⟨"/out", true⟩ ⟨"/proj/src", true⟩
          (World.mk (fun _ => none) (fun _ => false) true true)).2.2 := by
  refine ⟨rfl, by decide, by decide, by decide, ?_⟩
  have h := c4_fail_before_compile (BuildConfig.new.with_path (some ⟨"/missing.css", true⟩))
    ⟨"/out", true⟩ ⟨"/proj/src", true⟩
    (World.mk (fun _ => none) (fun _ => false) true true)
    ⟨"/missing.css", true⟩ rfl (by decide) (by decide) (by decide)
  exact h

/-- C4 counterexample to the claim as stated: with an absent
`node_modules`, the pipeline invokes the package-installation command and
only afterwards fails on the missing custom stylesheet, so it does not
fail "before invoking any external process". -/
theorem c4_npm_runs_before_failure :
    (installAndCompile (BuildConfig.new.with_path (some ⟨"/missing.css", true⟩))
      ⟨"/out", true⟩ ⟨"/proj/src", true⟩
      (World.mk (fun _ => none) (fun _ => false) true true)).1
      = Res.panicked "specified a css path but it does not exists" ∧
    Event.runNpmInstall "/out"
      ∈ (installAndCompile (BuildConfig.new.with_path (some ⟨"/missing.css", true⟩))
          ⟨"/out", true⟩ ⟨"/proj/src", true⟩
          (World.mk (fun _ => none) (fun _ => false) true true)).2.2 := by
  constructor
  · decide
  · decide

/-- C9 (amended): for the default configuration under the Debug profile
the build succeeds, writes exactly one file (the JIT config script) and
emits, in order: the `PROFILE` cache-invalidation hint, the script write,
the rustc-env directive carrying the script's path, and the rustc-env
directive carrying the default CDN url `https://cdn.tailwindcss.com`; no
subprocess is invoked. -/
theorem c9_debug_jit_run (o sps : String) (w : World) :
    build BuildConfig.new ⟨some "debug", some o, some ⟨sps, true⟩⟩ w =
      (Res.ok (),
       w.writeFile ((RustPath.mk o true).join "jit_config.js").repr
         (jitScriptText BuildConfig.new.tailwind_config sps),
       [Event.println "cargo:rerun-if-env-changed=PROFILE",
        Event.write ((RustPath.mk o true).join "jit_config.js").repr
          (jitScriptText BuildConfig.new.tailwind_config sps),
        Event.println ("cargo:rustc-env=INCLUDE_TAILWIND_JIT_CONFIG_PATH="
          ++ ((RustPath.mk o true).join "jit_config.js").repr),
        Event.println ("cargo:rustc-env=INCLUDE_TAILWIND_JIT_URL="
          ++ "https://cdn.tailwindcss.com")]) ∧
    countWrites (build BuildConfig.new ⟨some "debug", some o, some ⟨sps, true⟩⟩ w).2.2 = 1 ∧
    (build BuildConfig.new ⟨some "debug", some o, some ⟨sps, true⟩⟩ w).2.2.countP
      (fun e => isCommandEvent e) = 0 := by
  have hb : build BuildConfig.new ⟨some "debug", some o, some ⟨sps, true⟩⟩ w =
      (Res.ok (),
       w.writeFile ((RustPath.mk o true).join "jit_config.js").repr
         (jitScriptText BuildConfig.new.tailwind_config sps),
       [Event.println "cargo:rerun-if-env-changed=PROFILE",
        Event.write ((RustPath.mk o true).join "jit_config.js").repr
          (jitScriptText BuildConfig.new.tailwind_config sps),
        Event.println ("cargo:rustc-env=INCLUDE_TAILWIND_JIT_CONFIG_PATH="
          ++ ((RustPath.mk o true).join "jit_config.js").repr),
        Event.println ("cargo:rustc-env=INCLUDE_TAILWIND_JIT_URL="
          ++ "https://cdn.tailwindcss.com")]) := by
    simp [build, is_release, setup_jit, config_string, RustPath.toStr, RustPath.join,
      jitScriptText, BuildConfig.new]
  refine ⟨hb, ?_, ?_⟩ <;> rw [hb] <;> simp [countWrites, isCommandEvent]

/-- C9 counterexample to the claim as stated: the Debug-profile build
with default options performs exactly one file write (the JIT script),
not two. -/
theorem c9_single_write :
    countWrites (build BuildConfig.new
      ⟨some "debug", some "/out", some ⟨"/proj/src", true⟩⟩
      ⟨fun _ => none, fun _ => false, true, true⟩).2.2 = 1 ∧
    countWrites (build BuildConfig.new
      ⟨some "debug", some "/out", some ⟨"/proj/src", true⟩⟩
      ⟨fun _ => none, fun _ => false, true, true⟩).2.2 ≠ 2 := by
  have h : countWrites (build BuildConfig.new
      ⟨some "debug", some "/out", some ⟨"/proj/src", true⟩⟩
      ⟨fun _ => none, fun _ => false, true, true⟩).2.2 = 1 := by decide
  exact ⟨h, by omega⟩

theorem tok_suffix_mem_rb (u : List Char) (hu : u <:+ srcDirTok.data) :
    u = [] ∨ rb ∈ u := by
  have hmem := (List.mem_tails u srcDirTok.data).mpr hu
  have htails : srcDirTok.data.tails =
      ["\x7bsrc_dir\x7d".data, "src_dir\x7d".data, "rc_dir\x7d".data, "c_dir\x7d".data,
       "_dir\x7d".data, "dir\x7d".data, "ir\x7d".data, "r\x7d".data, "\x7d".data, []] := by
    decide
  rw [htails] at hmem
  simp only [List.mem_cons, List.not_mem_nil, or_false] at hmem
  rcases hmem with h|h|h|h|h|h|h|h|h|h <;> subst h <;>
    first
      | exact Or.inl rfl
      | exact Or.inr (by decide)

theorem tok_prefix_head (e : List Char) (he : e <+: srcDirTok.data) (hne : e ≠ []) :
    lb ∈ e := by
  rcases e with _ | ⟨a, e'⟩
  · exact absurd rfl hne
  · rw [show srcDirTok.data = lb :: tokTailL from by decide] at he
    rw [List.cons_prefix_cons] at he
    rw [he.1]
    exact List.mem_cons_self lb e'

theorem replace_prefix_reflect (rep : List Char)
    (hbr : ∀ c ∈ rep, c ≠ lb ∧ c ≠ rb)
    (hni : ¬ rep <:+: srcDirTok.data) :
    ∀ (n : Nat) (l : List Char), l.length ≤ n → ∀ u, u <:+ srcDirTok.data →
      u <+: replaceL lb tokTailL rep l → u <+: l := by
  intro n
  induction n with
  | zero =>
    intro l hl u _ hp
    have hnil : l = [] := List.eq_nil_of_length_eq_zero (Nat.le_zero.mp hl)
    subst hnil
    rw [replaceL_nil] at hp
    exact hp
  | succ n ih =>
    intro l hl u hu hp
    rcases l with _ | ⟨c, l'⟩
    · rw [replaceL_nil] at hp
      exact hp
    · have hlen : l'.length ≤ n := by simp at hl; omega
      by_cases hm : (lb :: tokTailL).isPrefixOf (c :: l') = true
      · rw [replaceL_cons, if_pos hm] at hp
        rcases u with _ | ⟨a, u'⟩
        · exact List.nil_prefix
        · exfalso
          rcases hp with ⟨k, hk⟩
          rcases List.append_eq_append_iff.mp hk with ⟨e, he1, _⟩ | ⟨e, he1, _⟩
          · have hsub : (a :: u') <+: rep := ⟨e, he1.symm⟩
            have hrbu : rb ∈ a :: u' := by
              rcases tok_suffix_mem_rb (a :: u') hu with h | h
              · exact absurd h (by simp)
              · exact h
            exact (hbr rb (hsub.subset hrbu)).2 rfl
          · have hsub : rep <+: (a :: u') := ⟨e, he1.symm⟩
            exact hni (hsub.isInfix.trans hu.isInfix)
      · rw [replaceL_cons, if_neg hm] at hp
        rcases u with _ | ⟨a, u'⟩
        · exact List.nil_prefix
        · rw [List.cons_prefix_cons] at hp
          obtain ⟨rfl, hp'⟩ := hp
          have hu' : u' <:+ srcDirTok.data := by
            rcases hu with ⟨s, hs⟩
            exact ⟨s ++ [a], by rw [List.append_assoc]; simpa using hs⟩
          exact List.cons_prefix_cons.mpr ⟨rfl, ih l' hlen u' hu' hp'⟩

theorem tok_not_prefix_replace (rep : List Char)
    (hbr : ∀ c ∈ rep, c ≠ lb ∧ c ≠ rb)
    (hni : ¬ rep <:+: srcDirTok.data) :
    ∀ l, ¬ srcDirTok.data <+: replaceL lb tokTailL rep l := by
  intro l h
  have hA := replace_prefix_reflect rep hbr hni l.length l (le_refl _) srcDirTok.data
    (List.suffix_refl _) h
  rcases l with _ | ⟨c, l'⟩
  · rw [List.prefix_nil] at hA
    exact absurd hA (by decide)
  · have hm : (lb :: tokTailL).isPrefixOf (c :: l') = true := by
      rw [ List.isPrefixOf_iff_prefix]
      rw [show (lb :: tokTailL) = srcDirTok.data from by decide]
      exact hA
    rw [replaceL_cons, if_pos hm] at h
    rcases h with ⟨k, hk⟩
    rcases List.append_eq_append_iff.mp hk with ⟨e, he1, _⟩ | ⟨e, he1, _⟩
    · have hsub : srcDirTok.data <+: rep := ⟨e, he1.symm⟩
      exact (hbr lb (hsub.subset (by decide))).1 rfl
    · have hsub : rep <+: srcDirTok.data := ⟨e, he1.symm⟩
      exact hni hsub.isInfix

theorem tok_not_in_replace_suffixes (rep : List Char)
    (hbr : ∀ c ∈ rep, c ≠ lb ∧ c ≠ rb)
    (hni : ¬ rep <:+: srcDirTok.data) :
    ∀ (n : Nat) (l : List Char), l.length ≤ n →
      ∀ t, t <:+ replaceL lb tokTailL rep l → ¬ srcDirTok.data <+: t := by
  intro n
  induction n with
  | zero =>
    intro l hl t ht h
    have hnil : l = [] := List.eq_nil_of_length_eq_zero (Nat.le_zero.mp hl)
    subst hnil
    rw [replaceL_nil] at ht
    rw [List.suffix_nil] at ht
    subst ht
    rw [List.prefix_nil] at h
    exact absurd h (by decide)
  | succ n ih =>
    intro l hl t ht h
    rcases l with _ | ⟨c, l'⟩
    · rw [replaceL_nil] at ht
      rw [List.suffix_nil] at ht
      subst ht
      rw [List.prefix_nil] at h
      exact absurd h (by decide)
    · have hlen : l'.length ≤ n := by simp at hl; omega
      by_cases hm : (lb :: tokTailL).isPrefixOf (c :: l') = true
      · rw [replaceL_cons, if_pos hm] at ht
        rcases ht with ⟨s, hs⟩
        rcases List.append_eq_append_iff.mp hs with ⟨e, he1, he2⟩ | ⟨e, _, he2⟩
        · have hesuf : e <:+ rep := ⟨s, he1.symm⟩
          subst he2
          rcases h with ⟨k, hk⟩
          rcases List.append_eq_append_iff.mp hk with ⟨m, hm1, _⟩ | ⟨m, hm1, hm2⟩
          · have hsub : srcDirTok.data <+: e := ⟨m, hm1.symm⟩
            exact (hbr lb (hesuf.subset (hsub.subset (by decide)))).1 rfl
          · rcases e with _ | ⟨a, e'⟩
            · have hpre : srcDirTok.data <+:
                  replaceL lb tokTailL rep (l'.drop tokTailL.length) :=
                ⟨k, by rw [List.nil_append] at hm1; rw [← hm1] at hm2; exact hm2.symm⟩
              exact tok_not_prefix_replace rep hbr hni _ hpre
            · have hsub : (a :: e') <+: srcDirTok.data := ⟨m, hm1.symm⟩
              have hlbe : lb ∈ a :: e' := tok_prefix_head (a :: e') hsub (by simp)
              exact (hbr lb (hesuf.subset hlbe)).1 rfl
        · have hts : t <:+ replaceL lb tokTailL rep (l'.drop tokTailL.length) :=
            ⟨e, he2.symm⟩
          have hdl : (l'.drop tokTailL.length).length ≤ n := by
            simp [List.length_drop]; omega
          exact ih (l'.drop tokTailL.length) hdl t hts h
      · rw [replaceL_cons, if_neg hm] at ht
        rcases List.suffix_cons_iff.mp ht with hteq | ht'
        · subst hteq
          have hpre : srcDirTok.data <+: replaceL lb tokTailL rep (c :: l') := by
            rw [replaceL_cons, if_neg hm]
            exact h
          exact tok_not_prefix_replace rep hbr hni _ hpre
        · exact ih l' hlen t ht' h

theorem occCount_replace_zero (rep : List Char)
    (hbr : ∀ c ∈ rep, c ≠ lb ∧ c ≠ rb)
    (hni : ¬ rep <:+: srcDirTok.data) (l : List Char) :
    occCountL srcDirTok.data (replaceL lb tokTailL rep l) = 0 := by
  refine List.countP_eq_zero.mpr ?_
  intro t htmem
  have htsuf := (List.mem_tails t _).mp htmem
  have hres := tok_not_in_replace_suffixes rep hbr hni l.length l (le_refl _) t htsuf
  simpa [ List.isPrefixOf_iff_prefix] using hres

theorem tok_no_overlap (x : List Char) (hx : srcDirTok.data <+: x) :
    ∀ i, 1 ≤ i → i ≤ 8 → ¬ srcDirTok.data <+: x.drop i := by
  rcases hx with ⟨r, hr⟩
  subst hr
  intro i h1 h8 hcon
  rw [List.drop_append_eq_append_drop] at hcon
  have hi9 : i - srcDirTok.data.length = 0 := by
    have hlen : srcDirTok.data.length = 9 := by decide
    omega
  rw [hi9, List.drop_zero] at hcon
  have hpre : srcDirTok.data.drop i <+: srcDirTok.data.drop i ++ r :=
    List.prefix_append _ _
  have h2 : srcDirTok.data.drop i <+: srcDirTok.data :=
    List.prefix_of_prefix_length_le hpre hcon (by simp [List.length_drop])
  have h3 := List.prefix_iff_eq_take.mp h2
  interval_cases i <;> revert h3 <;> decide

theorem countP_tails_drop (k : Nat) :
    ∀ (m : List Char), (∀ j, j < k → ¬ srcDirTok.data.isPrefixOf (m.drop j) = true) →
      occCountL srcDirTok.data m = occCountL srcDirTok.data (m.drop k) := by
  induction k with
  | zero => intro m _; rw [List.drop_zero]
  | succ k ih =>
    intro m hm
    rcases m with _ | ⟨a, m'⟩
    · rw [List.drop_nil]
    · have h0 : srcDirTok.data.isPrefixOf (a :: m') = false := by
        have hx := hm 0 (Nat.succ_pos k)
        rw [List.drop_zero] at hx
        simp only [Bool.not_eq_true] at hx
        exact hx
      have hrec := ih m' (fun j hj => by
        have hx := hm (j + 1) (Nat.succ_lt_succ hj)
        simpa using hx)
      show ((a :: m').tails.countP fun t => srcDirTok.data.isPrefixOf t) = _
      rw [show (a :: m').tails = (a :: m') :: m'.tails from by simp [List.tails]]
      rw [List.countP_cons]
      simp only [h0, if_false, List.drop_succ_cons]
      simpa [occCountL] using hrec

theorem replaceCount_eq_occCount :
    ∀ (n : Nat) (l : List Char), l.length ≤ n →
      replaceCountL lb tokTailL l = occCountL srcDirTok.data l := by
  intro n
  induction n with
  | zero =>
    intro l hl
    have hnil : l = [] := List.eq_nil_of_length_eq_zero (Nat.le_zero.mp hl)
    subst hnil
    simp only [replaceCountL]
    decide
  | succ n ih =>
    intro l hl
    rcases l with _ | ⟨c, l'⟩
    · simp only [replaceCountL]
      decide
    · have hlen : l'.length ≤ n := by simp at hl; omega
      by_cases hm : (lb :: tokTailL).isPrefixOf (c :: l') = true
      · simp only [replaceCountL]
        rw [if_pos hm]
        have hdrop : (l'.drop tokTailL.length).length ≤ n := by
          simp [List.length_drop]; omega
        rw [ih _ hdrop]
        have hm' : srcDirTok.data.isPrefixOf (c :: l') = true := by
          rw [show srcDirTok.data = lb :: tokTailL from by decide]
          exact hm
        have hx : srcDirTok.data <+: c :: l' := by
          rw [← List.isPrefixOf_iff_prefix]
          exact hm'
        have hskip : occCountL srcDirTok.data l' = occCountL srcDirTok.data (l'.drop 8) := by
          refine countP_tails_drop 8 l' ?_
          intro j hj
          have hov := tok_no_overlap (c :: l') hx (j + 1) (by omega) (by omega)
          rw [List.drop_succ_cons] at hov
          simpa [ List.isPrefixOf_iff_prefix] using hov
        have hcons : occCountL srcDirTok.data (c :: l')
            = occCountL srcDirTok.data l' + 1 := by
          show ((c :: l').tails.countP fun t => srcDirTok.data.isPrefixOf t) = _
          rw [show (c :: l').tails = (c :: l') :: l'.tails from by simp [List.tails]]
          rw [List.countP_cons]
          simp [occCountL, hm']
        rw [hcons, hskip]
        rw [show tokTailL.length = 8 from by decide]
        omega
      · simp only [replaceCountL]
        rw [if_neg hm]
        rw [ih l' hlen]
        have hm' : srcDirTok.data.isPrefixOf (c :: l') = false := by
          rw [show srcDirTok.data = lb :: tokTailL from by decide]
          simp only [Bool.not_eq_true] at hm
          exact hm
        have hcons : occCountL srcDirTok.data (c :: l') = occCountL srcDirTok.data l' := by
          show ((c :: l').tails.countP fun t => srcDirTok.data.isPrefixOf t) = _
          rw [show (c :: l').tails = (c :: l') :: l'.tails from by simp [List.tails]]
          rw [List.countP_cons]
          simp [occCountL, hm']
        rw [hcons]

theorem rustReplace_tok_data (s rep : String) :
    (rustReplace s srcDirTok rep).data = replaceL lb tokTailL rep.data s.data := rfl

/-- C3 (amended): for every configuration document and source directory
representable as text, the number of substitutions the renderer performs
equals the number of occurrences of the placeholder token in the
serialized document before substitution; and the rendered output contains
zero occurrences of the token whenever the source-directory text contains
no brace character and is not itself a contiguous substring of the token
(so the replacement can neither carry the token in nor recreate it across
a substitution boundary). -/
theorem c3_substitution_law (cfg : Json) (sp : String)
    (hbr : ∀ c ∈ sp.data, c ≠ lb ∧ c ≠ rb)
    (hni : ¬ sp.data <:+: srcDirTok.data) :
    occCountL srcDirTok.data
      (rustReplace (toStringPretty cfg) srcDirTok sp).data = 0 ∧
    replaceCountL lb tokTailL (toStringPretty cfg).data
      = occCountL srcDirTok.data (toStringPretty cfg).data := by
  constructor
  · rw [rustReplace_tok_data]
    exact occCount_replace_zero sp.data hbr hni (toStringPretty cfg).data
  · exact replaceCount_eq_occCount (toStringPretty cfg).data.length _ (le_refl _)

theorem c3_substitution_law_witness :
    (∀ c ∈ ("/proj/src" : String).data, c ≠ lb ∧ c ≠ rb) ∧
    ¬ (("/proj/src" : String).data <:+: srcDirTok.data) ∧
    occCountL srcDirTok.data
      (rustReplace (toStringPretty BuildConfig.new.tailwind_config) srcDirTok
        "/proj/src").data = 0 ∧
    replaceCountL lb tokTailL (toStringPretty BuildConfig.new.tailwind_config).data
      = occCountL srcDirTok.data (toStringPretty BuildConfig.new.tailwind_config).data := by
  refine ⟨by decide, by decide, ?_, ?_⟩
  · exact (c3_substitution_law BuildConfig.new.tailwind_config "/proj/src"
      (by decide) (by decide)).1
  · exact (c3_substitution_law BuildConfig.new.tailwind_config "/proj/src"
      (by decide) (by decide)).2

/-- C3 counterexample to the claim as stated: the zero-occurrence half
fails for some representable source directories.  With the default
configuration document and source directory `/p/{src_dir}` the rendered
output contains the token once; and even a brace-free source directory
(`src_dir`, a substring of the token) can recreate the token, as the
document consisting of the string `{{src_dir}}` shows. -/
theorem c3_token_in_output :
    occCountL srcDirTok.data
      (rustReplace (toStringPretty BuildConfig.new.tailwind_config) srcDirTok
        "/p/\x7bsrc_dir\x7d").data = 1 ∧
    occCountL srcDirTok.data
      (rustReplace (toStringPretty BuildConfig.new.tailwind_config) srcDirTok
        "/p/\x7bsrc_dir\x7d").data ≠ 0 ∧
    occCountL srcDirTok.data
      (rustReplace (toStringPretty (Json.str "\x7b\x7bsrc_dir\x7d\x7d")) srcDirTok
        "src_dir").data = 1 := by
  refine ⟨by decide, by decide, by decide⟩
